import Mathlib

set_option maxRecDepth 10000

/-!
Shallow embedding of `src/weather_bot.py` (a Telegram weather bot with a
TTL-based in-memory cache), together with theorems settling the frozen
claims about it.

Modelling conventions:
* Python `dict`s are association lists (`List (String × _)`); `dictFind`
  models `d[k]` / `k in d` lookup and `dictInsert` models `d[k] = v`
  (update in place, append at the end when the key is new) — the
  semantics of CPython dicts.
* JSON values decoded by `response.json()` are the inductive `JVal`
  (Python ints and floats kept apart, since `str()` renders them
  differently; floats idealised as rationals).
* `time.time()` results are rationals.  `get_weather_data` calls
  `time.time()` once for the staleness check (line 51) and again when
  storing a fresh result (line 71); these are the parameters `now` and
  `tStore`.
* The HTTP request of lines 64-79 is the environment's move: parameter
  `FetchOutcome` is either a response (status code + decoded JSON body)
  or a `requests.exceptions.RequestException`.
* Exceptions a handler would raise (`KeyError`, `IndexError`,
  `TypeError`, `AttributeError`) are modelled with `Except PyError`.
-/

/-- JSON/Python values as produced by `response.json()`. -/
inductive JVal where
  | int (n : ℤ)
  | float (q : ℚ)
  | str (s : String)
  | arr (xs : List JVal)
  | obj (fields : List (String × JVal))

/-- A Python dict with string keys, as an association list. -/
abbrev PyDict := List (String × JVal)

/-- The Python exceptions the modelled code can raise. -/
inductive PyError where
  | keyError (key : String)
  | indexError
  | typeError (msg : String)
  | attributeError (msg : String)
deriving DecidableEq

/-- Python dict lookup `d[k]` (first — and, given key uniqueness, only —
binding for `k`); also decides `k in d` via `Option.isSome`. -/
def dictFind {α : Type} (k : String) : List (String × α) → Option α
  | [] => none
  | (k', v) :: rest => if k = k' then some v else dictFind k rest

/-- Python dict assignment `d[k] = v`: replaces the value in place when the
key is present, appends a new binding otherwise. -/
def dictInsert {α : Type} (k : String) (v : α) : List (String × α) → List (String × α)
  | [] => [(k, v)]
  | (k', v') :: rest => if k' = k then (k, v) :: rest else (k', v') :: dictInsert k v rest

/-- `d[k]` on a dict, raising `KeyError` when absent. -/
def dictGetE (d : PyDict) (k : String) : Except PyError JVal :=
  match dictFind k d with
  | some v => .ok v
  | none => .error (.keyError k)

/-- Python subscript `v[k]` with a string key: a key lookup on dicts,
`TypeError` on every other value. -/
def JVal.getKey : JVal → String → Except PyError JVal
  | .obj fields, k => dictGetE fields k
  | _, _ => .error (.typeError "value is not subscriptable with a string key")

/-- Python subscript `v[i]` with a non-negative integer index. -/
def JVal.getIdx : JVal → ℕ → Except PyError JVal
  | .arr xs, i =>
    match xs.get? i with
    | some x => .ok x
    | none => .error .indexError
  | .str s, i =>
    match s.data.get? i with
    | some c => .ok (.str (String.mk [c]))
    | none => .error .indexError
  | .obj _, i => .error (.keyError (toString i))
  | _, _ => .error (.typeError "value is not subscriptable")

/-- Python `round` on a rational: round-half-to-even (banker's rounding),
returning an integer.  `f` is `⌊q⌋` (floor division of numerator by
denominator) and the fractional part `q - f` is compared with `1/2` via
the integer comparison `2·(num - f·den)` vs `den`. -/
def pyRound (q : ℚ) : ℤ :=
  let f : ℤ := Int.fdiv q.num q.den
  let num2 : ℤ := 2 * (q.num - f * q.den)
  if num2 < (q.den : ℤ) then f
  else if (q.den : ℤ) < num2 then f + 1
  else if f % 2 = 0 then f else f + 1

/-- `round(v)` in the source (line 90): defined on numbers, `TypeError`
otherwise. -/
def pyRoundE : JVal → Except PyError ℤ
  | .int n => .ok n
  | .float q => .ok (pyRound q)
  | _ => .error (.typeError "type does not define rounding")

/-- Python `str.capitalize`: first character upper-cased, the rest
lower-cased (ASCII-level model of the Unicode operation). -/
def pyCapitalize (s : String) : String :=
  match s.data with
  | [] => ""
  | c :: rest => String.mk (c.toUpper :: rest.map Char.toLower)

/-- `v.capitalize()` (line 98): attribute exists on strings only. -/
def pyCapitalizeE : JVal → Except PyError String
  | .str s => .ok (pyCapitalize s)
  | _ => .error (.attributeError "capitalize")

/-- `str(v)` as used by f-string interpolation.  Ints and strings render
exactly as in Python; the float and container cases are schematic (exact
CPython float `repr` and container rendering lie outside the rational
model and are never exercised by the claims). -/
def jvalStr : JVal → String
  | .str s => s
  | .int n => toString n
  | .float q => toString q
  | .arr _ => "[...]"
  | .obj _ => "\x7b...\x7d"

/-- Python truthiness of a value (`if not data`): zero, the empty string
and empty containers are falsy, everything else truthy. -/
def pyTruthy : JVal → Bool
  | .int n => n ≠ 0
  | .float q => q ≠ 0
  | .str s => ¬ s.isEmpty
  | .arr xs => ¬ xs.isEmpty
  | .obj fields => ¬ fields.isEmpty

/-- `v.get(k, dflt)` (line 89): the `get` attribute exists on dicts only. -/
def pyDictGet (v : JVal) (k : String) (dflt : JVal) : Except PyError JVal :=
  match v with
  | .obj fields => .ok ((dictFind k fields).getD dflt)
  | _ => .error (.attributeError "get")

/-- The characters `str.strip()` removes (ASCII whitespace). -/
def pyWhitespace (c : Char) : Bool :=
  c = ' ' || c = '\t' || c = '\n' || c = '\r' || c = '\x0b' || c = '\x0c'

/-- Python `str.strip()`: drop whitespace from both ends. -/
def pyStrip (s : String) : String :=
  String.mk (((s.data.dropWhile pyWhitespace).reverse.dropWhile pyWhitespace).reverse)

/-- `AVAILABLE_CITIES` (line 34). -/
def AVAILABLE_CITIES : List String := ["Kyiv", "Dnipro", "Lviv", "Uzhhorod", "Berlin"]

/-- `CACHE_DURATION = 10 * 60` seconds (line 39). -/
def CACHE_DURATION : ℚ := 10 * 60

/-- One value of `WEATHER_CACHE`: `{'timestamp': ..., 'data': ...}`
(line 71). -/
structure CacheEntry where
  timestamp : ℚ
  data : JVal

/-- `WEATHER_CACHE` (line 38): a dict from city name to entry. -/
abbrev Cache := List (String × CacheEntry)

/-- The environment's response to the single `requests.get` call:
either an HTTP response (status code and decoded JSON body) or a
`requests.exceptions.RequestException`. -/
inductive FetchOutcome where
  | response (status : ℕ) (body : JVal)
  | requestException (msg : String)

/-- Result of one `get_weather_data` call: the returned value
(`data` or `None`), the cache state after the call, and whether the
HTTP request was issued. -/
structure GetResult where
  result : Option JVal
  cache : Cache
  fetched : Bool

/-- Lines 57-79 of `get_weather_data`: issue the request; on status 200
store `{'timestamp': time.time(), 'data': data}` under the city and
return the data; on any other status, or on a transport exception,
return `None` and leave the cache untouched. -/
def fetchAndCache (city : String) (tStore : ℚ) (fetch : FetchOutcome) (cache : Cache) :
    GetResult :=
  match fetch with
  | .response status body =>
    if status = 200 then
      { result := some body
        cache := dictInsert city ⟨tStore, body⟩ cache
        fetched := true }
    else
      { result := none, cache := cache, fetched := true }
  | .requestException _ => { result := none, cache := cache, fetched := true }

/-- `get_weather_data` (lines 45-79).  `now` is the `time.time()` of the
staleness check (line 51), `tStore` the `time.time()` stored with a fresh
result (line 71). -/
def get_weather_data (city : String) (now tStore : ℚ) (fetch : FetchOutcome)
    (cache : Cache) : GetResult :=
  match dictFind city cache with
  | some entry =>
    if now - entry.timestamp < CACHE_DURATION then
      { result := some entry.data, cache := cache, fetched := false }
    else
      fetchAndCache city tStore fetch cache
  | none => fetchAndCache city tStore fetch cache

/-- The static failure message of line 87. -/
def FAILURE_MESSAGE : String := "Не вдалося отримати дані про погоду."

/-- The static rejection message of lines 154-157. -/
def REJECTION_MESSAGE : String :=
  "Будь ласка, обери місто зі списку, використовуючи кнопки нижче, або скористайся командою /start."

/-- `format_weather_message` (lines 82-101).  The argument is the value
returned by `get_weather_data` (`dict or None`); `if not data` covers
`None` and every falsy value.  Field accesses follow the source's
evaluation order and surface the exception a malformed payload would
raise. -/
def format_weather_message (input : Option JVal) : Except PyError String :=
  match input with
  | none => .ok FAILURE_MESSAGE
  | some data =>
    if pyTruthy data then
      (pyDictGet data "name" (.str "Невідоме місто")).bind fun nameV =>
      (data.getKey "main").bind fun mainV =>
      (mainV.getKey "temp").bind fun tempV =>
      (pyRoundE tempV).bind fun temp =>
      (mainV.getKey "humidity").bind fun humidity =>
      (data.getKey "weather").bind fun weatherV =>
      (weatherV.getIdx 0).bind fun w0 =>
      (w0.getKey "description").bind fun descV =>
      (pyCapitalizeE descV).map fun desc =>
        "📍 Погода в місті " ++ jvalStr nameV ++ ":\n" ++
        "🌡️ Температура: " ++ toString temp ++ "°C\n" ++
        "💧 Вологість: " ++ jvalStr humidity ++ "%\n" ++
        "☁️ Опис: " ++ desc
    else .ok FAILURE_MESSAGE

/-- Result of one `handle_city_request` call: the reply sent back (or the
exception escaping the handler), the cache state after the call, and
whether the weather API was queried. -/
structure HandleResult where
  reply : Except PyError String
  cache : Cache
  fetched : Bool

/-- `handle_city_request` (lines 141-157): strips the message text, then
either serves the weather (allow-listed city) or sends the static
rejection. -/
def handle_city_request (text : String) (now tStore : ℚ) (fetch : FetchOutcome)
    (cache : Cache) : HandleResult :=
  let city_name := pyStrip text
  if city_name ∈ AVAILABLE_CITIES then
    let r := get_weather_data city_name now tStore fetch cache
    { reply := format_weather_message r.result
      cache := r.cache
      fetched := r.fetched }
  else
    { reply := .ok REJECTION_MESSAGE, cache := cache, fetched := false }

/-! ## Helper lemmas -/

theorem fetchAndCache_fetched (city : String) (tStore : ℚ) (fetch : FetchOutcome)
    (cache : Cache) : (fetchAndCache city tStore fetch cache).fetched = true := by
  cases fetch with
  | response s b =>
    by_cases hs : s = 200 <;> simp [fetchAndCache, hs]
  | requestException m => rfl

theorem dictFind_dictInsert_self {α : Type} (k : String) (v : α) (l : List (String × α)) :
    dictFind k (dictInsert k v l) = some v := by
  induction l with
  | nil => simp [dictInsert, dictFind]
  | cons hd tl ih =>
    obtain ⟨x, y⟩ := hd
    by_cases h : x = k
    · simp [dictInsert, h, dictFind]
    · simp [dictInsert, h, dictFind, Ne.symm h, ih]

theorem dictFind_dictInsert_ne {α : Type} {k' k : String} (h : k' ≠ k) (v : α)
    (l : List (String × α)) : dictFind k' (dictInsert k v l) = dictFind k' l := by
  induction l with
  | nil => simp [dictInsert, dictFind, h]
  | cons hd tl ih =>
    obtain ⟨x, y⟩ := hd
    by_cases hx : x = k
    · subst hx
      simp [dictInsert, dictFind, h]
    · by_cases hk : k' = x <;> simp [dictInsert, hx, dictFind, hk, ih]

theorem mem_keys_dictInsert {α : Type} (a k : String) (v : α) (l : List (String × α)) :
    a ∈ (dictInsert k v l).map Prod.fst ↔ a = k ∨ a ∈ l.map Prod.fst := by
  induction l with
  | nil => simp [dictInsert]
  | cons hd tl ih =>
    obtain ⟨x, y⟩ := hd
    by_cases hx : x = k
    · subst hx
      simp [dictInsert]
    · simp only [dictInsert, hx, if_false, List.map_cons, List.mem_cons, ih]
      tauto

theorem nodup_keys_dictInsert {α : Type} (k : String) (v : α) (l : List (String × α))
    (h : (l.map Prod.fst).Nodup) : ((dictInsert k v l).map Prod.fst).Nodup := by
  induction l with
  | nil => simp [dictInsert]
  | cons hd tl ih =>
    obtain ⟨x, y⟩ := hd
    simp only [List.map_cons, List.nodup_cons] at h
    by_cases hx : x = k
    · subst hx
      simpa [dictInsert] using h
    · simp only [dictInsert, if_neg hx, List.map_cons, List.nodup_cons]
      refine ⟨?_, ih h.2⟩
      rw [mem_keys_dictInsert]
      rintro (h1 | h1)
      · exact hx h1
      · exact h.1 h1

theorem okBind {ε α β : Type} (a : α) (g : α → Except ε β) :
    (Except.ok a : Except ε α).bind g = g a := rfl

theorem errorBind {ε α β : Type} (e : ε) (g : α → Except ε β) :
    (Except.error e : Except ε α).bind g = .error e := rfl

theorem bindE_eq_ok {ε α β : Type} {x : Except ε α} {g : α → Except ε β} {b : β} :
    x.bind g = .ok b ↔ ∃ a, x = .ok a ∧ g a = .ok b := by
  cases x <;> simp [Except.bind]

theorem mapE_eq_ok {ε α β : Type} {x : Except ε α} {f : α → β} {b : β} :
    x.map f = .ok b ↔ ∃ a, x = .ok a ∧ f a = b := by
  cases x <;> simp [Except.map]

theorem dictGetE_eq_ok {d : PyDict} {k : String} {v : JVal} :
    dictGetE d k = .ok v ↔ dictFind k d = some v := by
  unfold dictGetE
  cases dictFind k d <;> simp

/-! ## Claim theorems: the cache (C1, C2, C3, C9, C10) -/

/-- C1: for a city with a cache entry written at time T, a call with
`now - T < 600` returns the cached record without issuing the HTTP
request, while a call with `now - T ≥ 600`, or with no entry present,
issues the request. -/
theorem get_weather_data_ttl (city : String) (now tStore : ℚ) (fetch : FetchOutcome)
    (cache : Cache) :
    (∀ e, dictFind city cache = some e → now - e.timestamp < CACHE_DURATION →
      get_weather_data city now tStore fetch cache = ⟨some e.data, cache, false⟩) ∧
    (∀ e, dictFind city cache = some e → CACHE_DURATION ≤ now - e.timestamp →
      (get_weather_data city now tStore fetch cache).fetched = true) ∧
    (dictFind city cache = none →
      (get_weather_data city now tStore fetch cache).fetched = true) := by
  refine ⟨?_, ?_, ?_⟩
  · intro e he hfresh
    simp [get_weather_data, he, hfresh]
  · intro e he hstale
    simp [get_weather_data, he, not_lt.mpr hstale, fetchAndCache_fetched]
  · intro he
    simp [get_weather_data, he, fetchAndCache_fetched]

theorem get_weather_data_ttl_witness :
    get_weather_data "Kyiv" 599 599 (.requestException "down")
        [("Kyiv", ⟨0, .str "w"⟩)]
      = ⟨some (.str "w"), [("Kyiv", ⟨0, .str "w"⟩)], false⟩ ∧
    (get_weather_data "Kyiv" 601 601 (.requestException "down")
        [("Kyiv", ⟨0, .str "w"⟩)]).fetched = true ∧
    (get_weather_data "Lviv" 0 0 (.requestException "down") []).fetched = true :=
  ⟨(get_weather_data_ttl "Kyiv" 599 599 _ _).1 ⟨0, .str "w"⟩ rfl
      (by norm_num [CACHE_DURATION]),
   (get_weather_data_ttl "Kyiv" 601 601 _ _).2.1 ⟨0, .str "w"⟩ rfl
      (by norm_num [CACHE_DURATION]),
   (get_weather_data_ttl "Lviv" 0 0 _ _).2.2 rfl⟩

/-- C2: when the fetch fails (non-200 status or a transport exception),
`get_weather_data` returns `None` — it does not fall back to a stale
entry — and leaves the cache exactly as it was: nothing is evicted and
nothing is written. -/
theorem failed_fetch_returns_none_preserves_cache (city : String) (now tStore : ℚ)
    (fetch : FetchOutcome) (cache : Cache)
    (hmiss : dictFind city cache = none ∨
      ∃ e, dictFind city cache = some e ∧ CACHE_DURATION ≤ now - e.timestamp)
    (hfail : ∀ body, fetch ≠ .response 200 body) :
    get_weather_data city now tStore fetch cache = ⟨none, cache, true⟩ := by
  have hfc : fetchAndCache city tStore fetch cache = ⟨none, cache, true⟩ := by
    cases fetch with
    | response s b =>
      have hs : s ≠ 200 := fun h => hfail b (by rw [h])
      simp [fetchAndCache, hs]
    | requestException m => rfl
  rcases hmiss with h | ⟨e, he, hstale⟩
  · simp [get_weather_data, h, hfc]
  · simp [get_weather_data, he, not_lt.mpr hstale, hfc]

theorem failed_fetch_returns_none_preserves_cache_witness :
    get_weather_data "Kyiv" 0 0 (.response 404 (.obj [])) [] = ⟨none, [], true⟩ ∧
    get_weather_data "Lviv" 700 700 (.requestException "timeout")
        [("Lviv", ⟨0, .str "old"⟩)]
      = ⟨none, [("Lviv", ⟨0, .str "old"⟩)], true⟩ :=
  ⟨failed_fetch_returns_none_preserves_cache "Kyiv" 0 0 _ [] (.inl rfl) (by simp),
   failed_fetch_returns_none_preserves_cache "Lviv" 700 700 _ _
      (.inr ⟨⟨0, .str "old"⟩, rfl, by norm_num [CACHE_DURATION]⟩) (by simp)⟩

/-- C3: a successful fetch (status 200) on a miss or a stale entry returns
the fresh body and stores it under the city with the store-time
timestamp, overwriting any prior entry for that city; dict insertion
keeps keys unique, so the cache still holds at most one entry per city. -/
theorem successful_fetch_overwrites (city : String) (now tStore : ℚ) (body : JVal)
    (cache : Cache)
    (hmiss : dictFind city cache = none ∨
      ∃ e, dictFind city cache = some e ∧ CACHE_DURATION ≤ now - e.timestamp) :
    (get_weather_data city now tStore (.response 200 body) cache).result = some body ∧
    (get_weather_data city now tStore (.response 200 body) cache).cache
      = dictInsert city ⟨tStore, body⟩ cache ∧
    dictFind city (get_weather_data city now tStore (.response 200 body) cache).cache
      = some ⟨tStore, body⟩ ∧
    ((cache.map Prod.fst).Nodup →
      ((get_weather_data city now tStore (.response 200 body) cache).cache.map
        Prod.fst).Nodup) := by
  have hg : get_weather_data city now tStore (.response 200 body) cache
      = ⟨some body, dictInsert city ⟨tStore, body⟩ cache, true⟩ := by
    rcases hmiss with h | ⟨e, he, hstale⟩
    · simp [get_weather_data, h, fetchAndCache]
    · simp [get_weather_data, he, not_lt.mpr hstale, fetchAndCache]
  rw [hg]
  exact ⟨rfl, rfl, dictFind_dictInsert_self city ⟨tStore, body⟩ cache,
    fun h => nodup_keys_dictInsert city ⟨tStore, body⟩ cache h⟩

theorem successful_fetch_overwrites_witness :
    (get_weather_data "Kyiv" 700 701 (.response 200 (.str "new"))
        [("Kyiv", ⟨0, .str "old"⟩)]).result = some (.str "new") ∧
    (get_weather_data "Kyiv" 700 701 (.response 200 (.str "new"))
        [("Kyiv", ⟨0, .str "old"⟩)]).cache
      = dictInsert "Kyiv" ⟨701, .str "new"⟩ [("Kyiv", ⟨0, .str "old"⟩)] ∧
    dictFind "Kyiv" (get_weather_data "Kyiv" 700 701 (.response 200 (.str "new"))
        [("Kyiv", ⟨0, .str "old"⟩)]).cache = some ⟨701, .str "new"⟩ ∧
    ((([("Kyiv", (⟨0, .str "old"⟩ : CacheEntry))] : Cache).map Prod.fst).Nodup →
      (((get_weather_data "Kyiv" 700 701 (.response 200 (.str "new"))
        [("Kyiv", ⟨0, .str "old"⟩)]).cache.map Prod.fst).Nodup)) :=
  successful_fetch_overwrites "Kyiv" 700 701 (.str "new") [("Kyiv", ⟨0, .str "old"⟩)]
    (.inr ⟨⟨0, .str "old"⟩, rfl, by norm_num [CACHE_DURATION]⟩)

/-- C9: a cache hit writes nothing — the call returns the cached record and
leaves the cache (and hence the entry's timestamp) exactly as it was — so
a later call finding `CACHE_DURATION ≤ t2 - timestamp` issues the HTTP
request no matter that a hit happened in between. -/
theorem cache_hit_no_write (city : String) (t1 s1 t2 s2 : ℚ) (f1 f2 : FetchOutcome)
    (cache : Cache) (e : CacheEntry)
    (he : dictFind city cache = some e)
    (hfresh : t1 - e.timestamp < CACHE_DURATION) :
    get_weather_data city t1 s1 f1 cache = ⟨some e.data, cache, false⟩ ∧
    (CACHE_DURATION ≤ t2 - e.timestamp →
      (get_weather_data city t2 s2 f2
        (get_weather_data city t1 s1 f1 cache).cache).fetched = true) := by
  have h1 : get_weather_data city t1 s1 f1 cache = ⟨some e.data, cache, false⟩ := by
    simp [get_weather_data, he, hfresh]
  refine ⟨h1, fun hstale => ?_⟩
  rw [h1]
  simp [get_weather_data, he, not_lt.mpr hstale, fetchAndCache_fetched]

theorem cache_hit_no_write_witness :
    get_weather_data "Kyiv" 300 300 (.requestException "down")
        [("Kyiv", ⟨0, .str "w"⟩)]
      = ⟨some (.str "w"), [("Kyiv", ⟨0, .str "w"⟩)], false⟩ ∧
    (get_weather_data "Kyiv" 700 700 (.requestException "down")
        (get_weather_data "Kyiv" 300 300 (.requestException "down")
          [("Kyiv", ⟨0, .str "w"⟩)]).cache).fetched = true :=
  ⟨(cache_hit_no_write "Kyiv" 300 300 700 700 (.requestException "down")
      (.requestException "down") [("Kyiv", ⟨0, .str "w"⟩)] ⟨0, .str "w"⟩ rfl
      (by norm_num [CACHE_DURATION])).1,
   (cache_hit_no_write "Kyiv" 300 300 700 700 (.requestException "down")
      (.requestException "down") [("Kyiv", ⟨0, .str "w"⟩)] ⟨0, .str "w"⟩ rfl
      (by norm_num [CACHE_DURATION])).2 (by norm_num [CACHE_DURATION])⟩

/-- Helper for C10: anything found in the cache after the fetch-and-store
step was already there, or is the 200-response body stored under the
requested city with the store timestamp. -/
theorem dictFind_fetchAndCache (city : String) (tStore : ℚ) (fetch : FetchOutcome)
    (cache : Cache) (k : String) (e : CacheEntry)
    (h : dictFind k (fetchAndCache city tStore fetch cache).cache = some e) :
    dictFind k cache = some e ∨
      (k = city ∧ ∃ body, fetch = .response 200 body ∧ e = ⟨tStore, body⟩) := by
  cases fetch with
  | response s b =>
    by_cases hs : s = 200
    · subst hs
      simp only [fetchAndCache, if_true, eq_self_iff_true, ite_true] at h
      by_cases hk : k = city
      · subst hk
        rw [dictFind_dictInsert_self] at h
        exact .inr ⟨rfl, b, rfl, (Option.some.inj h).symm⟩
      · rw [dictFind_dictInsert_ne hk] at h
        exact .inl h
    · simp only [fetchAndCache, if_neg hs] at h
      exact .inl h
  | requestException m => exact .inl h

/-- C10: every entry in the cache after a `get_weather_data` call either
was already present or is the parsed body of an HTTP 200 response stored
under the requested city with the fetch timestamp — a failed request
never writes anything (and the model stores `JVal` data only, never
`None` or an error marker). -/
theorem cache_values_from_success (city : String) (now tStore : ℚ)
    (fetch : FetchOutcome) (cache : Cache) (k : String) (e : CacheEntry)
    (h : dictFind k (get_weather_data city now tStore fetch cache).cache = some e) :
    dictFind k cache = some e ∨
      (k = city ∧ ∃ body, fetch = .response 200 body ∧ e = ⟨tStore, body⟩) := by
  cases hl : dictFind city cache with
  | some entry =>
    by_cases hf : now - entry.timestamp < CACHE_DURATION
    · have hg : get_weather_data city now tStore fetch cache
          = ⟨some entry.data, cache, false⟩ := by
        simp [get_weather_data, hl, hf]
      rw [hg] at h
      exact .inl h
    · have hg : get_weather_data city now tStore fetch cache
          = fetchAndCache city tStore fetch cache := by
        simp [get_weather_data, hl, hf]
      rw [hg] at h
      exact dictFind_fetchAndCache city tStore fetch cache k e h
  | none =>
    have hg : get_weather_data city now tStore fetch cache
        = fetchAndCache city tStore fetch cache := by
      simp [get_weather_data, hl]
    rw [hg] at h
    exact dictFind_fetchAndCache city tStore fetch cache k e h

theorem cache_values_from_success_witness :
    dictFind "Kyiv" ([] : Cache) = some ⟨5, .str "b"⟩ ∨
      ("Kyiv" = "Kyiv" ∧ ∃ body, FetchOutcome.response 200 (.str "b")
        = .response 200 body ∧ (⟨5, .str "b"⟩ : CacheEntry) = ⟨5, body⟩) :=
  cache_values_from_success "Kyiv" 0 5 (.response 200 (.str "b")) [] "Kyiv"
    ⟨5, .str "b"⟩ rfl

/-! ## Claim theorems: the formatter (C5, C6, C7, C8) -/

/-- Inversion helper: when `format_weather_message` succeeds on a truthy
dict, every field access of lines 89-98 succeeded and the output is the
template instantiated with the extracted values. -/
theorem format_obj_ok_inv (fields : PyDict) (s : String)
    (htruthy : pyTruthy (.obj fields) = true)
    (h : format_weather_message (some (.obj fields)) = .ok s) :
    ∃ nameV mainV tempV temp humV weatherV w0 descV desc,
      pyDictGet (.obj fields) "name" (.str "Невідоме місто") = .ok nameV ∧
      JVal.getKey (.obj fields) "main" = .ok mainV ∧
      mainV.getKey "temp" = .ok tempV ∧
      pyRoundE tempV = .ok temp ∧
      mainV.getKey "humidity" = .ok humV ∧
      JVal.getKey (.obj fields) "weather" = .ok weatherV ∧
      weatherV.getIdx 0 = .ok w0 ∧
      w0.getKey "description" = .ok descV ∧
      pyCapitalizeE descV = .ok desc ∧
      s = "📍 Погода в місті " ++ jvalStr nameV ++ ":\n" ++
          "🌡️ Температура: " ++ toString temp ++ "°C\n" ++
          "💧 Вологість: " ++ jvalStr humV ++ "%\n" ++
          "☁️ Опис: " ++ desc := by
  rw [format_weather_message, htruthy] at h
  simp only [if_true, ite_true] at h
  rw [bindE_eq_ok] at h
  obtain ⟨nameV, h1, h⟩ := h
  rw [bindE_eq_ok] at h
  obtain ⟨mainV, h2, h⟩ := h
  rw [bindE_eq_ok] at h
  obtain ⟨tempV, h3, h⟩ := h
  rw [bindE_eq_ok] at h
  obtain ⟨temp, h4, h⟩ := h
  rw [bindE_eq_ok] at h
  obtain ⟨humV, h5, h⟩ := h
  rw [bindE_eq_ok] at h
  obtain ⟨weatherV, h6, h⟩ := h
  rw [bindE_eq_ok] at h
  obtain ⟨w0, h7, h⟩ := h
  rw [bindE_eq_ok] at h
  obtain ⟨descV, h8, h⟩ := h
  rw [mapE_eq_ok] at h
  obtain ⟨desc, h9, h10⟩ := h
  exact ⟨nameV, mainV, tempV, temp, humV, weatherV, w0, descV, desc,
    h1, h2, h3, h4, h5, h6, h7, h8, h9, h10.symm⟩

/-- C7: on `None` — and on any falsy value, such as the empty dict — the
formatter returns the static failure string and raises nothing; in the
model it is a pure total function. -/
theorem formatter_falsy_static_failure (input : Option JVal)
    (h : input = none ∨ ∃ v, input = some v ∧ pyTruthy v = false) :
    format_weather_message input = .ok FAILURE_MESSAGE := by
  rcases h with h | ⟨v, hv, hfalsy⟩
  · rw [h]
    rfl
  · rw [hv, format_weather_message, hfalsy]
    simp

theorem formatter_falsy_static_failure_witness :
    format_weather_message none = .ok FAILURE_MESSAGE ∧
    format_weather_message (some (.obj [])) = .ok FAILURE_MESSAGE :=
  ⟨formatter_falsy_static_failure none (.inl rfl),
   formatter_falsy_static_failure (some (.obj [])) (.inr ⟨.obj [], rfl, rfl⟩)⟩

/-- C6: on the payload with name "Kyiv", temp 20.4, humidity 55 and
description "clear sky", the formatter's output contains "Kyiv", "20°C",
"55%" and "Clear sky" (temperature rounded to the nearest integer,
description capitalized). -/
theorem formatter_kyiv_roundtrip :
    ∃ s, format_weather_message (some (.obj [("name", .str "Kyiv"),
        ("main", .obj [("temp", .float (mkRat 102 5)), ("humidity", .int 55)]),
        ("weather", .arr [.obj [("description", .str "clear sky")]])])) = .ok s ∧
      "Kyiv".data <:+: s.data ∧ "20°C".data <:+: s.data ∧
      "55%".data <:+: s.data ∧ "Clear sky".data <:+: s.data :=
  ⟨"📍 Погода в місті Kyiv:\n🌡️ Температура: 20°C\n💧 Вологість: 55%\n☁️ Опис: Clear sky",
    rfl, by decide, by decide, by decide, by decide⟩

/-- C5 counterexample: on a body with no `name` field the rendered message
uses the Ukrainian default "Невідоме місто" and does not contain the
string "Unknown" the claim predicts. -/
theorem formatter_default_name_counterexample :
    format_weather_message (some (.obj [
        ("main", .obj [("temp", .int 20), ("humidity", .int 50)]),
        ("weather", .arr [.obj [("description", .str "sunny")]])]))
      = .ok "📍 Погода в місті Невідоме місто:\n🌡️ Температура: 20°C\n💧 Вологість: 50%\n☁️ Опис: Sunny" ∧
    ¬ ("Unknown".data <:+:
        "📍 Погода в місті Невідоме місто:\n🌡️ Температура: 20°C\n💧 Вологість: 50%\n☁️ Опис: Sunny".data) :=
  ⟨rfl, by decide⟩

/-- C5 (amended): when the provider's JSON body is a non-empty dict with
no `name` field and the formatter returns a message, the displayed city
name is the default "Невідоме місто", not "Unknown". -/
theorem formatter_default_name (fields : PyDict) (s : String)
    (hne : fields ≠ [])
    (hname : dictFind "name" fields = none)
    (h : format_weather_message (some (.obj fields)) = .ok s) :
    "Невідоме місто".data <:+: s.data := by
  have htruthy : pyTruthy (.obj fields) = true := by
    cases fields with
    | nil => exact absurd rfl hne
    | cons hd tl => simp [pyTruthy]
  obtain ⟨nameV, mainV, tempV, temp, humV, weatherV, w0, descV, desc,
    h1, _, _, _, _, _, _, _, _, h10⟩ := format_obj_ok_inv fields s htruthy h
  have hnv : nameV = .str "Невідоме місто" := by
    rw [pyDictGet, hname] at h1
    exact (Except.ok.inj h1).symm
  subst hnv h10
  refine ⟨"📍 Погода в місті ".data,
    (":\n" ++ "🌡️ Температура: " ++ toString temp ++ "°C\n" ++ "💧 Вологість: " ++
      jvalStr humV ++ "%\n" ++ "☁️ Опис: " ++ desc).data, ?_⟩
  simp [jvalStr, String.data_append, List.append_assoc]

theorem formatter_default_name_witness :
    "Невідоме місто".data <:+:
      "📍 Погода в місті Невідоме місто:\n🌡️ Температура: 21°C\n💧 Вологість: 60%\n☁️ Опис: Fog".data :=
  formatter_default_name
    [("main", .obj [("temp", .int 21), ("humidity", .int 60)]),
     ("weather", .arr [.obj [("description", .str "fog")]])]
    "📍 Погода в місті Невідоме місто:\n🌡️ Температура: 21°C\n💧 Вологість: 60%\n☁️ Опис: Fog"
    (by simp) rfl rfl

/-- C8: the formatter is not total on non-empty malformed dicts: a missing
`main` key raises `KeyError` on line 90, a missing nested `temp` raises
`KeyError`, and with `main`/`weather`/`humidity` malformed or the
`weather` list empty the call raises an exception instead of returning a
string. -/
theorem formatter_raises_on_malformed (fields : PyDict) (hne : fields ≠ []) :
    (dictFind "main" fields = none →
      format_weather_message (some (.obj fields)) = .error (.keyError "main")) ∧
    (∀ m, dictFind "main" fields = some (.obj m) → dictFind "temp" m = none →
      format_weather_message (some (.obj fields)) = .error (.keyError "temp")) ∧
    (∀ m, dictFind "main" fields = some (.obj m) → dictFind "humidity" m = none →
      (format_weather_message (some (.obj fields))).isOk = false) ∧
    (dictFind "weather" fields = none →
      (format_weather_message (some (.obj fields))).isOk = false) ∧
    (dictFind "weather" fields = some (.arr []) →
      (format_weather_message (some (.obj fields))).isOk = false) := by
  have htruthy : pyTruthy (.obj fields) = true := by
    cases fields with
    | nil => exact absurd rfl hne
    | cons hd tl => simp [pyTruthy]
  refine ⟨?_, ?_, ?_, ?_, ?_⟩
  · intro hmain
    rw [format_weather_message, htruthy]
    simp only [if_true, ite_true, pyDictGet, okBind]
    rw [show JVal.getKey (.obj fields) "main" = .error (.keyError "main") by
      simp [JVal.getKey, dictGetE, hmain]]
    rfl
  · intro m hmain htemp
    rw [format_weather_message, htruthy]
    simp only [if_true, ite_true, pyDictGet, okBind]
    rw [show JVal.getKey (.obj fields) "main" = .ok (.obj m) by
      simp [JVal.getKey, dictGetE, hmain]]
    rw [okBind]
    rw [show JVal.getKey (.obj m) "temp" = .error (.keyError "temp") by
      simp [JVal.getKey, dictGetE, htemp]]
    rfl
  · intro m hmain hhum
    cases hfmt : format_weather_message (some (.obj fields)) with
    | error e => rfl
    | ok s =>
      exfalso
      obtain ⟨nameV, mainV, tempV, temp, humV, weatherV, w0, descV, desc,
        _, h2, _, _, h5, _, _, _, _, _⟩ := format_obj_ok_inv fields s htruthy hfmt
      have hmv : mainV = .obj m := by
        rw [JVal.getKey, dictGetE_eq_ok] at h2
        rw [hmain] at h2
        exact (Option.some.inj h2).symm
      subst hmv
      rw [JVal.getKey, dictGetE_eq_ok, hhum] at h5
      exact Option.noConfusion h5
  · intro hweather
    cases hfmt : format_weather_message (some (.obj fields)) with
    | error e => rfl
    | ok s =>
      exfalso
      obtain ⟨nameV, mainV, tempV, temp, humV, weatherV, w0, descV, desc,
        _, _, _, _, _, h6, _, _, _, _⟩ := format_obj_ok_inv fields s htruthy hfmt
      rw [JVal.getKey, dictGetE_eq_ok, hweather] at h6
      exact Option.noConfusion h6
  · intro hweather
    cases hfmt : format_weather_message (some (.obj fields)) with
    | error e => rfl
    | ok s =>
      exfalso
      obtain ⟨nameV, mainV, tempV, temp, humV, weatherV, w0, descV, desc,
        _, _, _, _, _, h6, h7, _, _, _⟩ := format_obj_ok_inv fields s htruthy hfmt
      have hwv : weatherV = .arr [] := by
        rw [JVal.getKey, dictGetE_eq_ok] at h6
        rw [hweather] at h6
        exact (Option.some.inj h6).symm
      subst hwv
      exact Except.noConfusion h7

theorem formatter_raises_on_malformed_witness :
    format_weather_message (some (.obj [("x", .int 1)])) = .error (.keyError "main") ∧
    format_weather_message (some (.obj [("main", .obj [("humidity", .int 1)])]))
      = .error (.keyError "temp") ∧
    (format_weather_message (some (.obj [("main", .obj [("temp", .int 1)])]))).isOk
      = false ∧
    (format_weather_message (some (.obj [("main",
        .obj [("temp", .int 1), ("humidity", .int 2)])]))).isOk = false ∧
    (format_weather_message (some (.obj [("main",
        .obj [("temp", .int 1), ("humidity", .int 2)]),
        ("weather", .arr [])]))).isOk = false :=
  ⟨(formatter_raises_on_malformed [("x", .int 1)] (by simp)).1 rfl,
   (formatter_raises_on_malformed [("main", .obj [("humidity", .int 1)])]
      (by simp)).2.1 [("humidity", .int 1)] rfl rfl,
   (formatter_raises_on_malformed [("main", .obj [("temp", .int 1)])]
      (by simp)).2.2.1 [("temp", .int 1)] rfl rfl,
   (formatter_raises_on_malformed [("main", .obj [("temp", .int 1), ("humidity", .int 2)])]
      (by simp)).2.2.2.1 rfl,
   (formatter_raises_on_malformed [("main", .obj [("temp", .int 1), ("humidity", .int 2)]),
      ("weather", .arr [])] (by simp)).2.2.2.2 rfl⟩

/-! ## Claim theorems: the handler (C4) -/

/-- C4 counterexample: the input " Kyiv" (leading space) is not an exact
allow-list match, yet `handle_city_request` strips it, treats it as the
city "Kyiv" and invokes the fetcher instead of sending the static
rejection (here the fetch raises, so the reply is the failure message,
not the rejection message). -/
theorem handler_exact_match_counterexample :
    " Kyiv" ∉ AVAILABLE_CITIES ∧
    (handle_city_request " Kyiv" 0 0 (.requestException "down") []).fetched = true ∧
    (handle_city_request " Kyiv" 0 0 (.requestException "down") []).reply
      = .ok FAILURE_MESSAGE ∧
    FAILURE_MESSAGE ≠ REJECTION_MESSAGE :=
  ⟨by decide, rfl, rfl, by decide⟩

/-- C4 (amended): a free-text message is treated as a city selection iff
its whitespace-stripped form exactly (and case-sensitively) matches an
allow-list entry; whenever the stripped text is not in the allow-list the
handler never invokes the fetcher and replies with the static rejection
message, and whenever it is, the handler behaves as
`get_weather_data` + formatter on the stripped city. -/
theorem handler_strip_allowlist (text : String) (now tStore : ℚ)
    (fetch : FetchOutcome) (cache : Cache) :
    (pyStrip text ∉ AVAILABLE_CITIES →
      handle_city_request text now tStore fetch cache
        = ⟨.ok REJECTION_MESSAGE, cache, false⟩) ∧
    (pyStrip text ∈ AVAILABLE_CITIES →
      handle_city_request text now tStore fetch cache
        = ⟨format_weather_message
            (get_weather_data (pyStrip text) now tStore fetch cache).result,
          (get_weather_data (pyStrip text) now tStore fetch cache).cache,
          (get_weather_data (pyStrip text) now tStore fetch cache).fetched⟩) := by
  constructor
  · intro h
    simp [handle_city_request, h]
  · intro h
    simp [handle_city_request, h]

theorem handler_strip_allowlist_witness :
    handle_city_request "Odesa" 0 0 (.requestException "down") []
      = ⟨.ok REJECTION_MESSAGE, [], false⟩ ∧
    handle_city_request " Kyiv " 0 0 (.requestException "down") []
      = ⟨format_weather_message
          (get_weather_data "Kyiv" 0 0 (.requestException "down") []).result,
        (get_weather_data "Kyiv" 0 0 (.requestException "down") []).cache,
        (get_weather_data "Kyiv" 0 0 (.requestException "down") []).fetched⟩ :=
  ⟨(handler_strip_allowlist "Odesa" 0 0 (.requestException "down") []).1 (by decide),
   (handler_strip_allowlist " Kyiv " 0 0 (.requestException "down") []).2 (by decide)⟩
